import Mathlib

/-!
Shallow embedding of `src/anchor/programs/tokenvesting/src/lib.rs`
(program `token_vesting`).

Rust `i64` values are modelled as `Int`, with the saturating and wrapping
operations made explicit where the source uses them.  Public keys are
modelled as opaque `Nat` identifiers.  The external custody-transfer
primitive and the execution host are outside the embedded core: an
instruction handler is embedded as a pure function from its account state
and the clock to `Except MyError` of the updated state (plus, for
`claim_token`, the amount handed to the transfer primitive).
-/

namespace TokenVesting

/-- Rust `i64::MIN`. -/
def i64min : Int := -(2 ^ 63)

/-- Rust `i64::MAX`. -/
def i64max : Int := 2 ^ 63 - 1

/-- Rust `i64::saturating_sub`: the difference clamped to the `i64` range. -/
def satSub (a b : Int) : Int := max i64min (min i64max (a - b))

/-- Reduce an integer to the `i64` range by two's-complement wrap-around,
the behaviour of unchecked `i64` arithmetic. -/
def wrap64 (x : Int) : Int := (x + 2 ^ 63) % 2 ^ 64 - 2 ^ 63

/-- Unchecked `i64` multiplication (the source's `*` on line 72 carries no
overflow check: the `checked_mul` version is commented out). -/
def wrapMul (a b : Int) : Int := wrap64 (a * b)

/-- The `EmployeeAccount` state (lib.rs lines 196-208). -/
structure EmployeeAccount where
  beneficiary : Nat
  cliff_time : Int
  start_time : Int
  end_time : Int
  total_amount : Int
  total_withdrawn : Int
  vesting_account : Nat
  bump : Nat
  deriving DecidableEq, Repr

/-- The `VestingAccount` state (lib.rs lines 184-194). -/
structure VestingAccount where
  owner : Nat
  mint : Nat
  treasury_token_account : Nat
  company_name : String
  treasury_bump : Nat
  bump : Nat
  deriving DecidableEq, Repr

/-- The `MyError` codes (lib.rs lines 116-126): the complete list of error codes the
program defines. -/
inductive MyError where
  | claimNotAvailable
  | invalidVestingPeriod
  | calculationOverflow
  | nothingToClaim
  deriving DecidableEq, Repr

/-- Handler `create_vesting_account` (lib.rs lines 14-27): stores the pool
configuration; the handler itself performs no checks and always succeeds. -/
def create_vesting_account (owner mint treasury_token_account : Nat)
    (company_name : String) (treasury_bump bump : Nat) : VestingAccount :=
  { owner, mint, treasury_token_account, company_name, treasury_bump, bump }

/-- Handler `create_employee_account` (lib.rs lines 29-49): stores the schedule
exactly as given, with `total_withdrawn` initialised to 0.  The handler
performs no validation of the schedule and always succeeds. -/
def create_employee_account (vesting_account beneficiary bump : Nat)
    (start_time cliff_time end_time total_amount : Int) : EmployeeAccount :=
  { beneficiary, cliff_time, start_time, end_time, total_amount,
    total_withdrawn := 0, vesting_account, bump }

/-- Local `time_since_start` (lib.rs line 59): `now.saturating_sub(start_time)`. -/
def time_since_start (ea : EmployeeAccount) (now : Int) : Int :=
  satSub now ea.start_time

/-- Local `total_vesting_time` (lib.rs lines 61-63): as written in the source it
is `start_time.saturating_sub(start_time)` — `start_time` minus itself. -/
def total_vesting_time (ea : EmployeeAccount) : Int :=
  satSub ea.start_time ea.start_time

/-- Local `vested_amount` (lib.rs lines 69-83): the full grant once
`now >= end_time`, otherwise `(total_amount * time_since_start) /
total_vesting_time` with unchecked multiplication and Rust's
truncating-toward-zero `i64` division. -/
def vested_amount (ea : EmployeeAccount) (now : Int) : Int :=
  if ea.end_time ≤ now then ea.total_amount
  else Int.tdiv (wrapMul ea.total_amount (time_since_start ea now))
    (total_vesting_time ea)

/-- Local `claimable_amount` (lib.rs line 85): as written in the source it is
`vested_amount.saturating_sub(employee_account.total_amount)` — the grant
total, not `total_withdrawn`, is subtracted. -/
def claimable_amount (vested : Int) (ea : EmployeeAccount) : Int :=
  satSub vested ea.total_amount

/-- The success-path record update (lib.rs line 110): as written in the
source it is `employee_account.total_amount += claimable_amount`; the
`total_withdrawn` field is not touched. -/
def apply_claim_update (ea : EmployeeAccount) (claimable : Int) :
    EmployeeAccount :=
  { ea with total_amount := wrap64 (ea.total_amount + claimable) }

/-- Handler `claim_token` (lib.rs lines 51-113).  Returns the updated employee
record together with the amount passed to the custody-transfer primitive,
or the error the handler exits with. -/
def claim_token (ea : EmployeeAccount) (now : Int) :
    Except MyError (EmployeeAccount × Int) :=
  if now < ea.cliff_time then .error .claimNotAvailable
  else if total_vesting_time ea = 0 then .error .invalidVestingPeriod
  else
    let vested := vested_amount ea now
    let claimable := claimable_amount vested ea
    if claimable = 0 then .error .nothingToClaim
    else .ok (apply_claim_update ea claimable, claimable)

/-- One claim attempt as a transition on the employee record: the updated
record on success, the unchanged record when the handler errors (the host
commits no state on failure). -/
def claimStep (ea : EmployeeAccount) (now : Int) : EmployeeAccount :=
  match claim_token ea now with
  | .ok (ea2, _) => ea2
  | .error _ => ea

/-- Treasury custody-record derivation seeds at pool creation
(lib.rs line 150): `[b"treasury_token", company_name]`. -/
def treasury_creation_seeds (company_name : String) : List String :=
  ["treasury_token", company_name]

/-- Seeds used to sign the claim-time transfer (lib.rs lines 97-101):
`[b"vesting_treasury", company_name, treasury_bump]`; the string parts,
which determine the derived address the signature stands for. -/
def treasury_signing_seeds (company_name : String) : List String :=
  ["vesting_treasury", company_name]

/-- The accounts of the `ClaimToken` / `CreateVestingAccount` contexts that
can appear as an authority. -/
inductive AccountRef where
  | beneficiary
  | vestingAccount
  | treasuryTokenAccount
  deriving DecidableEq, Repr

/-- The account passed as `authority` of the claim-time `TransferChecked`
(lib.rs line 94): the beneficiary. -/
def transfer_authority : AccountRef := .beneficiary

/-- The authority the treasury custody record is created with
(lib.rs line 148, `token::authority = treasury_token_account`): the
treasury account itself. -/
def treasury_authority_at_creation : AccountRef := .treasuryTokenAccount

deriving instance DecidableEq for Except

/-- A demonstration schedule taken from the spec's concrete scenario:
start 0, cliff 100, end 1000, totalGranted 1000, nothing withdrawn. -/
def demoRec : EmployeeAccount :=
  create_employee_account 1 2 0 0 100 1000 1000

/-- The demonstration schedule mid-vesting, with 100 already withdrawn. -/
def midRec : EmployeeAccount :=
  { demoRec with total_withdrawn := 100 }

/-- A schedule whose grant is `i64::MAX`, the spec's overflow scenario. -/
def overflowRec : EmployeeAccount :=
  create_employee_account 1 2 0 0 0 (2 ^ 62) i64max

/-- An invalid schedule: `start_time` after `cliff_time` and `end_time`,
and a negative grant. -/
def badRec : EmployeeAccount :=
  create_employee_account 1 2 0 10 0 5 (-1)

theorem satSub_self (a : Int) : satSub a a = 0 := by
  norm_num [satSub, i64min, i64max]

theorem total_vesting_time_eq_zero (ea : EmployeeAccount) :
    total_vesting_time ea = 0 :=
  satSub_self ea.start_time

theorem claim_token_eq_error (ea : EmployeeAccount) (now : Int) :
    claim_token ea now =
      .error (if now < ea.cliff_time then MyError.claimNotAvailable
        else MyError.invalidVestingPeriod) := by
  by_cases h : now < ea.cliff_time
  · simp [claim_token, h]
  · simp [claim_token, h, total_vesting_time_eq_zero]

theorem claimStep_eq (ea : EmployeeAccount) (now : Int) :
    claimStep ea now = ea := by
  simp [claimStep, claim_token_eq_error]

theorem foldl_claimStep (ea : EmployeeAccount) (ts : List Int) :
    ts.foldl claimStep ea = ea := by
  induction ts with
  | nil => rfl
  | cons t ts ih => simp [List.foldl, claimStep_eq, ih]

/-- C1: the claim says `claim_token` computes the total vesting span as
`end_time − start_time` and fails with InvalidVestingPeriod exactly when
that span is ≤ 0.  In the code the span (`total_vesting_time`) is
`start_time − start_time`, which is 0 for every record, so on `demoRec` —
whose `end_time − start_time` span is the positive 1000 — a claim at
time 200 (past the cliff) still fails with InvalidVestingPeriod. -/
theorem c1_span_is_start_minus_start :
    (∀ ea : EmployeeAccount, total_vesting_time ea = 0) ∧
    0 < satSub demoRec.end_time demoRec.start_time ∧
    claim_token demoRec 200 = .error .invalidVestingPeriod :=
  ⟨total_vesting_time_eq_zero, by decide, by decide⟩

/-- C2: the claim says the claimable amount is `vested − total_withdrawn`
and the handler fails with NothingToClaim exactly when it is ≤ 0.  In the
code `claimable_amount` subtracts `total_amount` (the grant total): with
the spec scenario's vested amount 550 on a record with 100 withdrawn of a
1000 grant it yields −450 where the claim requires 450; moreover the
claim call never reaches this computation, exiting with
InvalidVestingPeriod first. -/
theorem c2_claimable_subtracts_grant_total :
    claimable_amount 550 midRec = -450 ∧
    550 - midRec.total_withdrawn = 450 ∧
    claim_token midRec 550 = .error .invalidVestingPeriod := by
  refine ⟨by decide, by decide, by decide⟩

/-- C3: the claim says every successful claim increases `total_withdrawn`
by the claimable amount and leaves the other fields unchanged.  In the
code no claim ever succeeds (every call returns an error), and the
success-path update as written adds the claimable amount to
`total_amount`, leaving `total_withdrawn` unchanged. -/
theorem c3_no_success_and_update_hits_total_amount :
    (∀ (ea : EmployeeAccount) (now : Int),
      ∃ e, claim_token ea now = .error e) ∧
    (∀ (ea : EmployeeAccount) (c : Int),
      (apply_claim_update ea c).total_withdrawn = ea.total_withdrawn) :=
  ⟨fun ea now => ⟨_, claim_token_eq_error ea now⟩, fun _ _ => rfl⟩

/-- C4: the claim says a claim reaching the vesting computation uses
overflow-checked multiplication and fails with CalculationOverflow rather
than wrapping.  In the code no execution of `claim_token` ever produces
CalculationOverflow (the checked multiplication is commented out and the
computation is unreachable): the spec's overflow scenario — grant
`i64::MAX` with a large elapsed time — exits with InvalidVestingPeriod,
and the unchecked multiplication the source uses wraps. -/
theorem c4_calculation_overflow_unreachable :
    (∀ (ea : EmployeeAccount) (now : Int),
      claim_token ea now ≠ .error .calculationOverflow) ∧
    claim_token overflowRec (2 ^ 61) = .error .invalidVestingPeriod ∧
    wrapMul i64max 2 = -2 := by
  refine ⟨fun ea now h => ?_, by decide, by decide⟩
  rw [claim_token_eq_error] at h
  split at h <;> simp_all

/-- C5 counterexample: the claim says the transfer is authorized by the
Pool's derived authority, signed with the same seeds as the Treasury
derivation used at creation.  On company name "acme" the signing seeds
differ from the Treasury creation seeds, the transfer's authority account
is not the vesting (pool) account, and neither is the treasury's
creation-time authority. -/
theorem c5_seed_mismatch_counterexample :
    treasury_signing_seeds "acme" ≠ treasury_creation_seeds "acme" ∧
    transfer_authority ≠ AccountRef.vestingAccount ∧
    treasury_authority_at_creation ≠ AccountRef.vestingAccount := by
  refine ⟨by decide, by decide, by decide⟩

/-- C5 (amended): for every company name the claim-time signing seeds
(`"vesting_treasury"`-prefixed) differ from the Treasury creation seeds
(`"treasury_token"`-prefixed); the transfer's `authority` account is the
beneficiary; and at pool creation the treasury custody record's authority
is set to the treasury account itself, not the pool's derived address. -/
theorem c5_transfer_wiring :
    (∀ n : String, treasury_signing_seeds n ≠ treasury_creation_seeds n) ∧
    transfer_authority = AccountRef.beneficiary ∧
    treasury_authority_at_creation = AccountRef.treasuryTokenAccount :=
  ⟨fun n => by simp [treasury_signing_seeds, treasury_creation_seeds],
    rfl, rfl⟩

/-- C6 counterexample: the claim says `0 ≤ totalWithdrawn ≤ totalGranted`
holds after every operation.  Creating an employee record with a grant of
−1 (which `create_employee_account` accepts) yields a record with
`total_withdrawn = 0 > total_amount`. -/
theorem c6_negative_grant_counterexample :
    badRec.total_withdrawn = 0 ∧
    ¬ badRec.total_withdrawn ≤ badRec.total_amount := by
  refine ⟨by decide, by decide⟩

/-- C6 (amended): provided the grant is nonnegative at creation, after
creation and any sequence of claim attempts the record satisfies
`0 ≤ total_withdrawn ≤ total_amount`; indeed `total_withdrawn` starts at
0 and — every claim attempt failing and leaving the record unchanged —
stays 0, so it is monotone and never exceeds the grant. -/
theorem c6_invariant_nonneg_grant (va ben bump : Nat) (s c e t : Int)
    (ht : 0 ≤ t) (ts : List Int) :
    (ts.foldl claimStep (create_employee_account va ben bump s c e t)).total_withdrawn = 0 ∧
    0 ≤ (ts.foldl claimStep (create_employee_account va ben bump s c e t)).total_withdrawn ∧
    (ts.foldl claimStep (create_employee_account va ben bump s c e t)).total_withdrawn ≤
      (ts.foldl claimStep (create_employee_account va ben bump s c e t)).total_amount := by
  rw [foldl_claimStep]
  exact ⟨rfl, le_refl 0, ht⟩

/-- C6 witness: the amended invariant instantiated on the demonstration
schedule after the spec scenario's claim times. -/
theorem c6_invariant_nonneg_grant_witness :
    ([100, 550, 1000, 2000].foldl claimStep
      (create_employee_account 1 2 0 0 100 1000 1000)).total_withdrawn = 0 ∧
    0 ≤ ([100, 550, 1000, 2000].foldl claimStep
      (create_employee_account 1 2 0 0 100 1000 1000)).total_withdrawn ∧
    ([100, 550, 1000, 2000].foldl claimStep
      (create_employee_account 1 2 0 0 100 1000 1000)).total_withdrawn ≤
      ([100, 550, 1000, 2000].foldl claimStep
        (create_employee_account 1 2 0 0 100 1000 1000)).total_amount :=
  c6_invariant_nonneg_grant 1 2 0 0 100 1000 1000 (by decide)
    [100, 550, 1000, 2000]

/-- C7 counterexample: the claim says `create_employee_account` validates
`startTime ≤ cliffTime ≤ endTime` and `totalGranted ≥ 0`, rejecting with
InvalidSchedule otherwise.  Creation with start 10, cliff 0, end 5 and
grant −1 succeeds, storing exactly those values. -/
theorem c7_invalid_schedule_accepted :
    badRec.start_time = 10 ∧ badRec.cliff_time = 0 ∧ badRec.end_time = 5 ∧
    badRec.total_amount = -1 ∧
    ¬ badRec.start_time ≤ badRec.cliff_time ∧
    badRec.total_amount < 0 := by
  refine ⟨by decide, by decide, by decide, by decide, by decide, by decide⟩

/-- C7 (amended): `create_employee_account` performs no validation at all:
it always succeeds, storing exactly the schedule it was given with
`total_withdrawn = 0`; and the program defines no InvalidSchedule error —
its only error codes are ClaimNotAvailable, InvalidVestingPeriod,
CalculationOverflow and NothingToClaim. -/
theorem c7_no_creation_validation :
    (∀ (va ben bump : Nat) (s c e t : Int),
      (create_employee_account va ben bump s c e t).start_time = s ∧
      (create_employee_account va ben bump s c e t).cliff_time = c ∧
      (create_employee_account va ben bump s c e t).end_time = e ∧
      (create_employee_account va ben bump s c e t).total_amount = t ∧
      (create_employee_account va ben bump s c e t).total_withdrawn = 0) ∧
    (∀ err : MyError,
      err = .claimNotAvailable ∨ err = .invalidVestingPeriod ∨
      err = .calculationOverflow ∨ err = .nothingToClaim) :=
  ⟨fun _ _ _ _ _ _ _ => ⟨rfl, rfl, rfl, rfl, rfl⟩,
    fun err => by cases err <;> simp⟩

/-- C8: for every record with a valid schedule, a claim at a time strictly
before the cliff fails with ClaimNotAvailable and leaves the record
unchanged. -/
theorem c8_before_cliff_claim_not_available (ea : EmployeeAccount)
    (now : Int) (_h1 : ea.start_time ≤ ea.cliff_time)
    (_h2 : ea.cliff_time ≤ ea.end_time) (h : now < ea.cliff_time) :
    claim_token ea now = .error .claimNotAvailable ∧
    claimStep ea now = ea :=
  ⟨by simp [claim_token, h], claimStep_eq ea now⟩

/-- C8 witness: the demonstration schedule (cliff 100) claimed at time
50. -/
theorem c8_before_cliff_witness :
    claim_token demoRec 50 = .error .claimNotAvailable ∧
    claimStep demoRec 50 = demoRec :=
  c8_before_cliff_claim_not_available demoRec 50 (by decide) (by decide)
    (by decide)

/-- C9: the claim says the vested amount computed by `claim_token` is
monotone in the claim time for times at which the vesting computation is
reached.  In the code that computation is reached at no time at all: on
the demonstration schedule, claims at both spec-scenario times 100 and
550 (cliff passed, before the end) exit with InvalidVestingPeriod before
any vested amount is computed. -/
theorem c9_vesting_computation_never_reached :
    claim_token demoRec 100 = .error .invalidVestingPeriod ∧
    claim_token demoRec 550 = .error .invalidVestingPeriod ∧
    demoRec.cliff_time ≤ 100 ∧ (100 : Int) < 550 ∧
    (550 : Int) < demoRec.end_time := by
  refine ⟨by decide, by decide, by decide, by decide, by decide⟩

/-- C10: in the implementation as written `total_vesting_time` is
`start_time − start_time`, hence 0 for every record; every claim at a
time past the cliff fails with InvalidVestingPeriod; every claim attempt
leaves the record unchanged; and after creation and any sequence of claim
attempts `total_withdrawn` is still its initial value 0. -/
theorem c10_total_withdrawn_frozen_at_zero :
    (∀ ea : EmployeeAccount, total_vesting_time ea = 0) ∧
    (∀ (ea : EmployeeAccount) (now : Int), ea.cliff_time ≤ now →
      claim_token ea now = .error .invalidVestingPeriod) ∧
    (∀ (ea : EmployeeAccount) (now : Int), claimStep ea now = ea) ∧
    (∀ (va ben bump : Nat) (s c e t : Int) (ts : List Int),
      (ts.foldl claimStep (create_employee_account va ben bump s c e t)).total_withdrawn = 0) := by
  refine ⟨total_vesting_time_eq_zero, fun ea now hge => ?_, claimStep_eq,
    fun va ben bump s c e t ts => ?_⟩
  · rw [claim_token_eq_error, if_neg (not_lt.mpr hge)]
  · rw [foldl_claimStep]
    rfl

/-- C10 witness: the demonstration schedule claimed at time 150, past its
cliff of 100. -/
theorem c10_total_withdrawn_frozen_witness :
    claim_token demoRec 150 = .error .invalidVestingPeriod :=
  c10_total_withdrawn_frozen_at_zero.2.1 demoRec 150 (by decide)

end TokenVesting
